import Mathlib

/-!
Shallow embedding of the student-management-api repository.

The repository contains two HTTP server files:
* `src/unnamed/part_000` — the full server with JWT authentication
  (auth routes, auth middleware, protected student/course writes);
* `src/server.js` — an earlier variant of the same API with student routes
  only, no authentication middleware, and no `ObjectId.isValid` guard in its
  PUT/DELETE handlers.

Request bodies, stored documents and responses are modelled as flat lists of
string-keyed scalar JSON values, matching the data model (all fields are
strings/numbers).  Database collections are lists of documents in insertion
order; `findOne`, `replaceOne` and `deleteOne` act on the first match, as the
driver does.  External libraries (bcrypt, jsonwebtoken, the ObjectId
constructor) are modelled explicitly where their behaviour is observable.
-/

namespace StudentApi

/-- Scalar JSON values as used by this API: every request/response field and
every stored field is a scalar (string, number, boolean, null, a serialized
date, or a signed JWT string, modelled as an opaque scalar carrying the
payload it encodes and its signature). -/
inductive JVal where
  | null
  | bool (b : Bool)
  | num (n : Int)
  | str (s : String)
  | date (t : Nat)
  | tok (userId : String) (exp : Nat) (sig : String)
deriving DecidableEq

/-- JavaScript truthiness for the scalar values above: `undefined`/`null`,
`false`, `0` and `""` are falsy, everything else truthy. -/
def truthy : JVal → Bool
  | .null => false
  | .bool b => b
  | .num n => decide (n ≠ 0)
  | .str s => decide (s ≠ "")
  | .date _ => true
  | .tok _ _ _ => true

/-- Truthiness of a possibly-absent (`undefined`) value. -/
def truthyO : Option JVal → Bool
  | none => false
  | some v => truthy v

/-- Property access `body.k` on a JSON object: the value of the first binding
of key `k`, or `undefined` when absent. -/
def jsGet (body : List (String × JVal)) (k : String) : Option JVal :=
  (body.find? fun kv => decide (kv.1 = k)).map Prod.snd

/-- A stored document: a store-generated identifier plus its fields. -/
structure Doc where
  oid : String
  fields : List (String × JVal)
deriving DecidableEq

/-- The document database: the three named collections of `studentDB`, plus a
counter from which fresh ObjectIds are generated. -/
structure Store where
  users : List Doc
  students : List Doc
  courses : List Doc
  nextOid : Nat
deriving DecidableEq

/-- Generation of a fresh store identifier. -/
def genId (n : Nat) : String := "oid-" ++ toString n

/-- `collection.findOne({k: q})`: first document whose field `k` equals `q`. -/
def findOneBy (docs : List Doc) (k : String) (q : Option JVal) : Option Doc :=
  docs.find? fun d => decide (jsGet d.fields k = q)

/-- `collection.findOne({_id: i})`: first document with identifier `i`. -/
def findById (docs : List Doc) (i : String) : Option Doc :=
  docs.find? fun d => decide (d.oid = i)

/-- `collection.insertOne`: appends the new document. -/
def insertOne (docs : List Doc) (newId : String) (fs : List (String × JVal)) :
    List Doc :=
  docs ++ [⟨newId, fs⟩]

/-- `collection.replaceOne({_id: i}, fs)`: replaces the fields of the first
document with identifier `i` wholesale, keeping its identifier; returns the
new collection and `matchedCount`. -/
def replaceOneById : List Doc → String → List (String × JVal) → List Doc × Nat
  | [], _, _ => ([], 0)
  | d :: ds, i, fs =>
    if d.oid = i then (⟨d.oid, fs⟩ :: ds, 1)
    else
      let r := replaceOneById ds i fs
      (d :: r.1, r.2)

/-- `collection.deleteOne({_id: i})`: removes the first document with
identifier `i`; returns the new collection and `deletedCount`. -/
def deleteOneById : List Doc → String → List Doc × Nat
  | [], _ => ([], 0)
  | d :: ds, i =>
    if d.oid = i then (ds, 1)
    else
      let r := deleteOneById ds i
      (d :: r.1, r.2)

/-- HTTP response bodies produced by this API. -/
inductive Body where
  | empty
  | text (s : String)
  | obj (fields : List (String × JVal))
  | docs (ds : List (List (String × JVal)))
deriving DecidableEq

/-- An HTTP response. -/
structure Resp where
  status : Nat
  body : Body
deriving DecidableEq

/-- Shorthand for the ubiquitous `{message: m}` bodies. -/
def msgBody (m : String) : Body := .obj [("message", .str m)]

/-- The shared validation-failure response of the student/course writes. -/
def allFieldsResp : Resp := ⟨400, msgBody "All fields are required"⟩

/-- A hexadecimal digit, as accepted by the ObjectId parser. -/
def isHexChar (c : Char) : Bool :=
  c.isDigit || (decide ('a' ≤ c) && decide (c ≤ 'f'))
    || (decide ('A' ≤ c) && decide (c ≤ 'F'))

/-- Model of `ObjectId.isValid` on a string argument: a 24-character hex
string or a 12-character string. -/
def isValidObjectId (s : String) : Bool :=
  decide (s.length = 12)
    || (decide (s.length = 24) && s.data.all isHexChar)

/-- JSON serialization of a stored document, `_id` first. -/
def docJson (d : Doc) : List (String × JVal) := ("_id", .str d.oid) :: d.fields

/-- JavaScript `s.split(" ")` on the underlying character list: splits at
every space, keeping empty components (so the result is never empty). -/
def splitSp : List Char → List (List Char)
  | [] => [[]]
  | c :: cs =>
    if c = ' ' then [] :: splitSp cs
    else
      match splitSp cs with
      | [] => [[c]]
      | w :: ws => (c :: w) :: ws

/-- JavaScript `s.split(" ")` on strings. -/
def jsSplitSpace (s : String) : List String := (splitSp s.data).map String.mk

/-- Modelled from the spec: `jwt.sign({userId}, secret, {expiresIn: "1h"})`
of the external jsonwebtoken library produces a signed token embedding the
user identifier and an expiration one hour (3600 seconds) from issuance. -/
def jwtSign (userId : String) (secret : String) (now : Nat) : JVal :=
  .tok userId (now + 3600) secret

/-- Modelled from the spec: `jwt.verify(token, secret)` of the external
jsonwebtoken library returns the decoded claims when the signature matches
the secret and the token is unexpired (current time before `exp`), and
throws otherwise. -/
def jwtVerifyTok (v : JVal) (secret : String) (now : Nat) : Option String :=
  match v with
  | .tok uid e sig => if sig = secret && decide (now < e) then some uid else none
  | _ => none

/-- Verification of a token string: decode the compact JWT encoding (the
decoding function is a parameter), then check signature and expiry. -/
def jwtVerifyStr (decode : String → Option JVal) (secret : String) (now : Nat)
    (tokStr : String) : Option String :=
  match decode tokStr with
  | none => none
  | some v => jwtVerifyTok v secret now

/-- The rejection response for a missing Authorization header. -/
def noTokenResp : Resp := ⟨401, msgBody "No token provided"⟩

/-- The rejection response for a token that fails verification. -/
def invalidTokenResp : Resp := ⟨401, msgBody "Invalid token"⟩

/-- `authMiddleware` of `src/unnamed/part_000`: reject with 401
"No token provided" when `req.headers.authorization` is falsy; otherwise
take the second component of the header split at spaces as the token, verify
it, attach the decoded claims on success, and reject with 401 "Invalid token"
when verification throws (including when the split has no second component,
so the token is `undefined`). -/
def authMiddleware (verify : String → Option String)
    (authHeader : Option String) : Except Resp String :=
  match authHeader with
  | none => .error noTokenResp
  | some h =>
    if h = "" then .error noTokenResp
    else
      match (jsSplitSpace h).get? 1 with
      | none => .error invalidTokenResp
      | some tk =>
        match verify tk with
        | none => .error invalidTokenResp
        | some uid => .ok uid

/-- Required-field check of `POST /auth/register`: `!email || !password`. -/
def regBodyOk (body : List (String × JVal)) : Bool :=
  truthyO (jsGet body "email") && truthyO (jsGet body "password")

/-- `POST /auth/register` of `src/unnamed/part_000`.  `bh` models
`bcrypt.hash(·, 10)`; `now` is the current time for `createdAt`. -/
def registerHandler (bh : JVal → String) (now : Nat) (st : Store)
    (body : List (String × JVal)) : Resp × Store :=
  if !regBodyOk body then
    (⟨400, msgBody "Email and password required"⟩, st)
  else
    match findOneBy st.users "email" (jsGet body "email") with
    | some _ => (⟨400, msgBody "User already exists"⟩, st)
    | none =>
      let hashedPassword := bh ((jsGet body "password").getD .null)
      let user : List (String × JVal) :=
        [("email", (jsGet body "email").getD .null),
         ("password", .str hashedPassword),
         ("createdAt", .date now)]
      let newId := genId st.nextOid
      (⟨201, .obj [("message", .str "User created"), ("id", .str newId)]⟩,
       { st with users := insertOne st.users newId user,
                 nextOid := st.nextOid + 1 })

/-- `POST /auth/login` of `src/unnamed/part_000`.  `bcmp` models
`bcrypt.compare`; when either the supplied password or the stored hash is
`undefined`, bcrypt rejects and the catch block answers 500. -/
def loginHandler (bcmp : JVal → JVal → Bool) (secret : String) (now : Nat)
    (st : Store) (body : List (String × JVal)) : Resp × Store :=
  match findOneBy st.users "email" (jsGet body "email") with
  | none => (⟨401, msgBody "Invalid credentials"⟩, st)
  | some user =>
    match jsGet body "password", jsGet user.fields "password" with
    | some p, some hsh =>
      if bcmp p hsh then
        (⟨200, .obj [("token", jwtSign user.oid secret now)]⟩, st)
      else
        (⟨401, msgBody "Invalid credentials"⟩, st)
    | _, _ => (⟨500, .obj [("error", .str "data and hash arguments required")]⟩, st)

/-- The six student fields read from a request body. -/
def studentFieldsOf (body : List (String × JVal)) : List (String × JVal) :=
  [("firstName", (jsGet body "firstName").getD .null),
   ("lastName", (jsGet body "lastName").getD .null),
   ("email", (jsGet body "email").getD .null),
   ("course", (jsGet body "course").getD .null),
   ("year", (jsGet body "year").getD .null),
   ("registrationNumber", (jsGet body "registrationNumber").getD .null)]

/-- Required-field check of the student writes. -/
def studentBodyOk (body : List (String × JVal)) : Bool :=
  truthyO (jsGet body "firstName") && truthyO (jsGet body "lastName")
    && truthyO (jsGet body "email") && truthyO (jsGet body "course")
    && truthyO (jsGet body "year") && truthyO (jsGet body "registrationNumber")

/-- `POST /students` handler of `src/unnamed/part_000` (runs behind the auth
gate): validate the six fields, then insert the document (fields plus a
`createdAt` timestamp). -/
def postStudentsHandler (now : Nat) (st : Store)
    (body : List (String × JVal)) : Resp × Store :=
  if !studentBodyOk body then (allFieldsResp, st)
  else
    let newId := genId st.nextOid
    (⟨201, .obj [("message", .str "Student created"), ("id", .str newId)]⟩,
     { st with
        students :=
          insertOne st.students newId
            (studentFieldsOf body ++ [("createdAt", .date now)]),
        nextOid := st.nextOid + 1 })

/-- `PUT /students/:id` handler of `src/unnamed/part_000`: 400 on malformed
id, 400 on missing fields, then `replaceOne`; 404 when nothing matched,
otherwise 204. -/
def putStudentsHandler (st : Store) (i : String)
    (body : List (String × JVal)) : Resp × Store :=
  if !isValidObjectId i then (⟨400, msgBody "Invalid student ID"⟩, st)
  else if !studentBodyOk body then (allFieldsResp, st)
  else
    let r := replaceOneById st.students i (studentFieldsOf body)
    if r.2 = 0 then (⟨404, msgBody "Student not found"⟩, { st with students := r.1 })
    else (⟨204, .empty⟩, { st with students := r.1 })

/-- `DELETE /students/:id` handler of `src/unnamed/part_000`. -/
def deleteStudentsHandler (st : Store) (i : String) : Resp × Store :=
  if !isValidObjectId i then (⟨400, msgBody "Invalid student ID"⟩, st)
  else
    let r := deleteOneById st.students i
    if r.2 = 0 then (⟨404, msgBody "Student not found"⟩, { st with students := r.1 })
    else (⟨204, .empty⟩, { st with students := r.1 })

/-- `GET /students` of `src/unnamed/part_000` (public). -/
def getStudentsHandler (st : Store) : Resp × Store :=
  (⟨200, .docs (st.students.map docJson)⟩, st)

/-- `GET /students/:id` of `src/unnamed/part_000` (public). -/
def getStudentByIdHandler (st : Store) (i : String) : Resp × Store :=
  if !isValidObjectId i then (⟨400, msgBody "Invalid student ID"⟩, st)
  else
    match findById st.students i with
    | none => (⟨404, msgBody "Student not found"⟩, st)
    | some d => (⟨200, .obj (docJson d)⟩, st)

/-- The seven course fields read from a request body. -/
def courseFieldsOf (body : List (String × JVal)) : List (String × JVal) :=
  [("name", (jsGet body "name").getD .null),
   ("code", (jsGet body "code").getD .null),
   ("instructor", (jsGet body "instructor").getD .null),
   ("credits", (jsGet body "credits").getD .null),
   ("semester", (jsGet body "semester").getD .null),
   ("department", (jsGet body "department").getD .null),
   ("year", (jsGet body "year").getD .null)]

/-- Required-field check of the course writes. -/
def courseBodyOk (body : List (String × JVal)) : Bool :=
  truthyO (jsGet body "name") && truthyO (jsGet body "code")
    && truthyO (jsGet body "instructor") && truthyO (jsGet body "credits")
    && truthyO (jsGet body "semester") && truthyO (jsGet body "department")
    && truthyO (jsGet body "year")

/-- `POST /courses` handler of `src/unnamed/part_000` (no `createdAt`). -/
def postCoursesHandler (st : Store) (body : List (String × JVal)) :
    Resp × Store :=
  if !courseBodyOk body then (allFieldsResp, st)
  else
    let newId := genId st.nextOid
    (⟨201, .obj [("message", .str "Course created"), ("id", .str newId)]⟩,
     { st with courses := insertOne st.courses newId (courseFieldsOf body),
               nextOid := st.nextOid + 1 })

/-- `PUT /courses/:id` handler of `src/unnamed/part_000`. -/
def putCoursesHandler (st : Store) (i : String)
    (body : List (String × JVal)) : Resp × Store :=
  if !isValidObjectId i then (⟨400, msgBody "Invalid course ID"⟩, st)
  else if !courseBodyOk body then (allFieldsResp, st)
  else
    let r := replaceOneById st.courses i (courseFieldsOf body)
    if r.2 = 0 then (⟨404, msgBody "Course not found"⟩, { st with courses := r.1 })
    else (⟨204, .empty⟩, { st with courses := r.1 })

/-- `DELETE /courses/:id` handler of `src/unnamed/part_000`. -/
def deleteCoursesHandler (st : Store) (i : String) : Resp × Store :=
  if !isValidObjectId i then (⟨400, msgBody "Invalid course ID"⟩, st)
  else
    let r := deleteOneById st.courses i
    if r.2 = 0 then (⟨404, msgBody "Course not found"⟩, { st with courses := r.1 })
    else (⟨204, .empty⟩, { st with courses := r.1 })

/-- `GET /courses` of `src/unnamed/part_000` (public). -/
def getCoursesHandler (st : Store) : Resp × Store :=
  (⟨200, .docs (st.courses.map docJson)⟩, st)

/-- `GET /courses/:id` of `src/unnamed/part_000` (public). -/
def getCourseByIdHandler (st : Store) (i : String) : Resp × Store :=
  if !isValidObjectId i then (⟨400, msgBody "Invalid course ID"⟩, st)
  else
    match findById st.courses i with
    | none => (⟨404, msgBody "Course not found"⟩, st)
    | some d => (⟨200, .obj (docJson d)⟩, st)

/-- Error message of the mongodb `ObjectId` constructor on a malformed
argument (thrown inside the try block of the `src/server.js` handlers and
echoed by the catch block). -/
def objectIdErrMsg : String :=
  "input must be a 24 character hex string, 12 byte Uint8Array, or an integer"

/-- `POST /students` of `src/server.js`: identical to the authenticated
server's handler except that the route has no auth middleware and the
success message reads "Student created successfully". -/
def plainPostStudents (now : Nat) (st : Store)
    (body : List (String × JVal)) : Resp × Store :=
  if !studentBodyOk body then (allFieldsResp, st)
  else
    let newId := genId st.nextOid
    (⟨201, .obj [("message", .str "Student created successfully"),
                  ("id", .str newId)]⟩,
     { st with
        students :=
          insertOne st.students newId
            (studentFieldsOf body ++ [("createdAt", .date now)]),
        nextOid := st.nextOid + 1 })

/-- `PUT /students/:id` of `src/server.js`: no auth middleware and no
validity guard — `new ObjectId(req.params.id)` runs first inside the try
block, so a malformed id throws and the catch block answers 500. -/
def plainPutStudents (st : Store) (i : String)
    (body : List (String × JVal)) : Resp × Store :=
  if !isValidObjectId i then (⟨500, .obj [("error", .str objectIdErrMsg)]⟩, st)
  else if !studentBodyOk body then (allFieldsResp, st)
  else
    let r := replaceOneById st.students i (studentFieldsOf body)
    if r.2 = 0 then (⟨404, msgBody "Student not found"⟩, { st with students := r.1 })
    else (⟨204, .empty⟩, { st with students := r.1 })

/-- `DELETE /students/:id` of `src/server.js`: same pattern as its PUT. -/
def plainDeleteStudents (st : Store) (i : String) : Resp × Store :=
  if !isValidObjectId i then (⟨500, .obj [("error", .str objectIdErrMsg)]⟩, st)
  else
    let r := deleteOneById st.students i
    if r.2 = 0 then (⟨404, msgBody "Student not found"⟩, { st with students := r.1 })
    else (⟨204, .empty⟩, { st with students := r.1 })

/-- The six protected write routes of `src/unnamed/part_000`. -/
inductive PRoute where
  | postS
  | putS (i : String)
  | delS (i : String)
  | postC
  | putC (i : String)
  | delC (i : String)
deriving DecidableEq

/-- Dispatch of a protected route to its handler (after the auth gate). -/
def pHandler (now : Nat) (st : Store) (body : List (String × JVal)) :
    PRoute → Resp × Store
  | .postS => postStudentsHandler now st body
  | .putS i => putStudentsHandler st i body
  | .delS i => deleteStudentsHandler st i
  | .postC => postCoursesHandler st body
  | .putC i => putCoursesHandler st i body
  | .delC i => deleteCoursesHandler st i

/-- A protected route of `src/unnamed/part_000` as mounted: `authMiddleware`
first, the handler only when the gate admits the request. -/
def protectedCall (verify : String → Option String) (authHeader : Option String)
    (now : Nat) (st : Store) (body : List (String × JVal)) (r : PRoute) :
    Resp × Store :=
  match authMiddleware verify authHeader with
  | .error resp => (resp, st)
  | .ok _ => pHandler now st body r

/-- The environment variables read by `src/unnamed/part_000` at startup. -/
structure Env where
  jwtSecret : Option String
  mongoUri : Option String
  port : Option Nat
deriving DecidableEq

/-- JavaScript truthiness of a possibly-absent environment variable
(`process.env.X` is `undefined` when unset; the empty string is falsy). -/
def envTruthy : Option String → Bool
  | none => false
  | some s => decide (s ≠ "")

/-- A booted server of `src/unnamed/part_000`: the configuration captured
once the startup checks have passed and the HTTP server is bound. -/
structure App where
  secret : String
  port : Nat
deriving DecidableEq

/-- Startup of `src/unnamed/part_000`: the very first statements check
`process.env.JWT_SECRET` and call `process.exit(1)` (modelled as `none`)
when it is falsy; only otherwise is the app built and the port bound. -/
def boot (env : Env) : Option App :=
  if envTruthy env.jwtSecret then
    some ⟨env.jwtSecret.getD "", env.port.getD 3000⟩
  else none

/-- Every route of `src/unnamed/part_000`, with the credentials a request
may carry. -/
inductive Req where
  | root
  | register (body : List (String × JVal))
  | login (body : List (String × JVal))
  | getStudents
  | getStudent (i : String)
  | getCourses
  | getCourse (i : String)
  | prot (auth : Option String) (r : PRoute) (body : List (String × JVal))
deriving DecidableEq

/-- Request dispatch of the booted `src/unnamed/part_000` server. -/
def handleReq (bh : JVal → String) (bcmp : JVal → JVal → Bool)
    (decode : String → Option JVal) (now : Nat) (app : App) (st : Store) :
    Req → Resp × Store
  | .root => (⟨200, .text "Student Management API is running"⟩, st)
  | .register body => registerHandler bh now st body
  | .login body => loginHandler bcmp app.secret now st body
  | .getStudents => getStudentsHandler st
  | .getStudent i => getStudentByIdHandler st i
  | .getCourses => getCoursesHandler st
  | .getCourse i => getCourseByIdHandler st i
  | .prot auth r body =>
      protectedCall (jwtVerifyStr decode app.secret now) auth now st body r

/-- The whole `src/unnamed/part_000` process: boot, then serve the given
requests in order against the store.  When the startup check fails, the
process has exited and no request is ever handled (`none`). -/
def runServer (bh : JVal → String) (bcmp : JVal → JVal → Bool)
    (decode : String → Option JVal) (env : Env) (now : Nat) (st : Store)
    (reqs : List Req) : Option (List Resp × Store) :=
  match boot env with
  | none => none
  | some app =>
    some (reqs.foldl
      (fun acc r =>
        let out := handleReq bh bcmp decode now app acc.2 r
        (acc.1 ++ [out.1], out.2))
      (([] : List Resp), st))

/-- Whether a scalar value carries the string `s`: a string value equal to
`s`, or a token whose embedded claim is `s` (a signed token reveals its
payload, not its signature input). -/
def scalarMentions (v : JVal) (s : String) : Bool :=
  match v with
  | .str x => decide (x = s)
  | .tok uid _ _ => decide (uid = s)
  | _ => false

/-- Whether any field of an object carries the string `s`. -/
def fieldsMention (fs : List (String × JVal)) (s : String) : Bool :=
  fs.any fun kv => scalarMentions kv.2 s

/-- Whether a response body carries the string `s` anywhere. -/
def bodyMentions (b : Body) (s : String) : Bool :=
  match b with
  | .empty => false
  | .text x => decide (x = s)
  | .obj fs => fieldsMention fs s
  | .docs ds => ds.any fun fs => fieldsMention fs s

/-- Number of documents whose `email` field equals `v`. -/
def countByEmail (docs : List Doc) (v : JVal) : Nat :=
  (docs.filter fun d => decide (jsGet d.fields "email" = some v)).length

/-- The registration/login request body. -/
def regBody (email pw : JVal) : List (String × JVal) :=
  [("email", email), ("password", pw)]

/-- The six id-addressed routes of `src/unnamed/part_000`. -/
inductive IdRoute where
  | getS
  | putS
  | delS
  | getC
  | putC
  | delC
deriving DecidableEq

/-- Dispatch of an id-addressed route to its `src/unnamed/part_000` handler
(the GET routes ignore the body; the protected ones are taken after the auth
gate has admitted the request). -/
def idCall (st : Store) (i : String) (body : List (String × JVal)) :
    IdRoute → Resp × Store
  | .getS => getStudentByIdHandler st i
  | .putS => putStudentsHandler st i body
  | .delS => deleteStudentsHandler st i
  | .getC => getCourseByIdHandler st i
  | .putC => putCoursesHandler st i body
  | .delC => deleteCoursesHandler st i

/-- The collection an id-addressed route looks its id up in. -/
def idRouteColl (st : Store) : IdRoute → List Doc
  | .getS => st.students
  | .putS => st.students
  | .delS => st.students
  | .getC => st.courses
  | .putC => st.courses
  | .delC => st.courses

/-- The body validation an id-addressed route performs before its store
operation (only the PUT routes validate a body). -/
def idRouteBodyOk (body : List (String × JVal)) : IdRoute → Bool
  | .putS => studentBodyOk body
  | .putC => courseBodyOk body
  | _ => true

/-- Fixture: the empty database. -/
def emptyStore : Store := ⟨[], [], [], 0⟩

/-- Fixture: a well-formed ObjectId string. -/
def sampleId : String := "aaaaaaaaaaaaaaaaaaaaaaaa"

/-- Fixture: a second well-formed ObjectId string, absent from the fixture
stores. -/
def otherId : String := "bbbbbbbbbbbbbbbbbbbbbbbb"

/-- Fixture: a complete student request body. -/
def sampleStudentBody : List (String × JVal) :=
  [("firstName", .str "Ada"), ("lastName", .str "Lovelace"),
   ("email", .str "ada@example.com"), ("course", .str "CS"),
   ("year", .num 2), ("registrationNumber", .str "REG-1")]

/-- Fixture: a store holding one student document created at time 11. -/
def sampleStore : Store :=
  ⟨[], [⟨sampleId, studentFieldsOf sampleStudentBody ++ [("createdAt", .date 11)]⟩],
   [], 7⟩

/-- Fixture: a complete course request body. -/
def sampleCourseBody : List (String × JVal) :=
  [("name", .str "Algebra"), ("code", .str "MATH1"),
   ("instructor", .str "Noether"), ("credits", .num 3),
   ("semester", .str "Fall"), ("department", .str "Math"),
   ("year", .num 2025)]

/-- Fixture: a store holding one course document. -/
def courseStore : Store :=
  ⟨[], [], [⟨sampleId, courseFieldsOf sampleCourseBody⟩], 3⟩

/-- Fixture: a verifier that rejects every token. -/
def neverVerify : String → Option String := fun _ => none

/-- Fixture: a store holding one registered user. -/
def userStore : Store :=
  ⟨[⟨"u1", [("email", .str "a@b.com"), ("password", .str "H"),
      ("createdAt", .date 0)]⟩], [], [], 1⟩

/-- Fixture: a verifier accepting exactly the token string "tok9". -/
def schemeVerify : String → Option String :=
  fun s => if s = "tok9" then some "u9" else none

/-- Fixture: a decoder recognising one token string, signed with secret
"sec" at time 100. -/
def sampleDecode : String → Option JVal :=
  fun s => if s = "tok7" then some (jwtSign "u7" "sec" 100) else none

/-- Fixture: a store with one registered user, one student document (with a
`createdAt` stamp) and one course document. -/
def fullStore : Store :=
  ⟨[⟨"u1", [("email", .str "a@b.com"), ("password", .str "H"),
      ("createdAt", .date 0)]⟩],
   [⟨sampleId, studentFieldsOf sampleStudentBody ++ [("createdAt", .date 11)]⟩],
   [⟨sampleId, courseFieldsOf sampleCourseBody⟩], 9⟩

/-- A booted `src/server.js` server: its startup reads no JWT_SECRET — the
only configuration it captures is the port. -/
structure PlainApp where
  port : Nat
deriving DecidableEq

/-- Startup of `src/server.js`: no environment check at all — it connects
to the database and binds the port whatever the environment holds. -/
def plainBoot (env : Env) : Option PlainApp :=
  some ⟨env.port.getD 3000⟩

/-- Every route of `src/server.js` (no auth anywhere). -/
inductive PlainReq where
  | root
  | getStudents
  | postStudents (body : List (String × JVal))
  | putStudents (i : String) (body : List (String × JVal))
  | delStudents (i : String)
deriving DecidableEq

/-- Request dispatch of the booted `src/server.js` server. -/
def plainHandleReq (now : Nat) (st : Store) : PlainReq → Resp × Store
  | .root => (⟨200, .text "Student Management API is running"⟩, st)
  | .getStudents => getStudentsHandler st
  | .postStudents body => plainPostStudents now st body
  | .putStudents i body => plainPutStudents st i body
  | .delStudents i => plainDeleteStudents st i

/-- The whole `src/server.js` process: boot (which cannot fail on a missing
JWT_SECRET, since it never reads it), then serve the requests in order. -/
def runPlainServer (env : Env) (now : Nat) (st : Store)
    (reqs : List PlainReq) : Option (List Resp × Store) :=
  match plainBoot env with
  | none => none
  | some _ =>
    some (reqs.foldl
      (fun acc r =>
        let out := plainHandleReq now acc.2 r
        (acc.1 ++ [out.1], out.2))
      (([] : List Resp), st))

/-- Fixture: an environment with no JWT_SECRET but a database URI. -/
def noSecretEnv : Env := ⟨none, some "mongodb://localhost:27017", none⟩

/-! ## Helper lemmas -/

theorem splitSp_no_space {l : List Char} (h : ∀ c ∈ l, c ≠ ' ') :
    splitSp l = [l] := by
  induction l with
  | nil => rfl
  | cons c cs ih =>
    have hc : c ≠ ' ' := h c (List.mem_cons_self c cs)
    have ih' : splitSp cs = [cs] := ih fun x hx => h x (List.mem_cons_of_mem c hx)
    simp [splitSp, hc, ih']

theorem splitSp_cons (c : Char) (cs : List Char) :
    splitSp (c :: cs) = if c = ' ' then [] :: splitSp cs
      else match splitSp cs with
        | [] => [[c]]
        | w :: ws => (c :: w) :: ws := by
  simp [splitSp]

theorem splitSp_sep {w t : List Char} (hw : w ≠ []) (hwsp : ∀ c ∈ w, c ≠ ' ')
    (htsp : ∀ c ∈ t, c ≠ ' ') : splitSp (w ++ ' ' :: t) = [w, t] := by
  induction w with
  | nil => exact absurd rfl hw
  | cons c cs ih =>
    have hc : c ≠ ' ' := hwsp c (List.mem_cons_self c cs)
    cases cs with
    | nil =>
      simp [splitSp, hc, splitSp_no_space htsp]
    | cons c2 cs2 =>
      have ih' : splitSp (c2 :: cs2 ++ ' ' :: t) = [c2 :: cs2, t] :=
        ih (by simp) fun x hx => hwsp x (List.mem_cons_of_mem c hx)
      rw [List.cons_append, splitSp_cons, if_neg hc, ih']

theorem data_ne_nil_of_ne_empty {s : String} (h : s ≠ "") : s.data ≠ [] := by
  intro h0
  apply h
  cases s with
  | mk l => cases h0; rfl

theorem ne_empty_of_data_ne_nil {s : String} (h : s.data ≠ []) : s ≠ "" := by
  intro h0
  subst h0
  exact h rfl

theorem jsSplitSpace_sep (w t : String) (hw : w ≠ "")
    (hwsp : ∀ c ∈ w.data, c ≠ ' ') (htsp : ∀ c ∈ t.data, c ≠ ' ') :
    jsSplitSpace (w ++ " " ++ t) = [w, t] := by
  have hd : (w ++ " " ++ t).data = w.data ++ ' ' :: t.data := by
    simp [String.data_append]
  have hw' : w.data ≠ [] := data_ne_nil_of_ne_empty hw
  rw [jsSplitSpace, hd, splitSp_sep hw' hwsp htsp]
  cases w with
  | mk lw =>
    cases t with
    | mk lt => rfl

theorem jsSplitSpace_no_space (h : String) (hsp : ∀ c ∈ h.data, c ≠ ' ') :
    jsSplitSpace h = [h] := by
  rw [jsSplitSpace, splitSp_no_space hsp]
  cases h with
  | mk l => rfl

theorem sep_ne_empty (w t : String) : w ++ " " ++ t ≠ "" := by
  apply ne_empty_of_data_ne_nil
  have hd : (w ++ " " ++ t).data = w.data ++ ' ' :: t.data := by
    simp [String.data_append]
  rw [hd]
  simp

theorem findById_cons (d : Doc) (tl : List Doc) (i : String) :
    findById (d :: tl) i = if d.oid = i then some d else findById tl i := by
  rw [findById, List.find?_cons]
  by_cases hh : d.oid = i <;> simp [hh, findById]

theorem replaceOneById_of_none {ds : List Doc} {i : String}
    (h : findById ds i = none) (fs : List (String × JVal)) :
    replaceOneById ds i fs = (ds, 0) := by
  induction ds with
  | nil => rfl
  | cons d tl ih =>
    rw [findById_cons] at h
    by_cases hh : d.oid = i
    · simp [hh] at h
    · rw [if_neg hh] at h
      simp [replaceOneById, hh, ih h]

theorem deleteOneById_of_none {ds : List Doc} {i : String}
    (h : findById ds i = none) : deleteOneById ds i = (ds, 0) := by
  induction ds with
  | nil => rfl
  | cons d tl ih =>
    rw [findById_cons] at h
    by_cases hh : d.oid = i
    · simp [hh] at h
    · rw [if_neg hh] at h
      simp [deleteOneById, hh, ih h]

theorem replaceOneById_of_some {ds : List Doc} {i : String} {d : Doc}
    (h : findById ds i = some d) (fs : List (String × JVal)) :
    (replaceOneById ds i fs).2 = 1 ∧
      findById (replaceOneById ds i fs).1 i = some ⟨i, fs⟩ := by
  induction ds with
  | nil => simp [findById] at h
  | cons hd tl ih =>
    rw [findById_cons] at h
    by_cases hh : hd.oid = i
    · constructor
      · simp [replaceOneById, hh]
      · simp [replaceOneById, hh, findById_cons]
    · rw [if_neg hh] at h
      have hr := ih h
      constructor
      · simp [replaceOneById, hh, hr.1]
      · simpa [replaceOneById, hh, findById_cons] using hr.2

theorem registerHandler_success (bh : JVal → String) (now : Nat) (st : Store)
    (email pw : JVal) (he : truthy email = true) (hp : truthy pw = true)
    (hfind : findOneBy st.users "email" (some email) = none) :
    registerHandler bh now st (regBody email pw) =
      (⟨201, .obj [("message", .str "User created"),
          ("id", .str (genId st.nextOid))]⟩,
       { st with
          users := st.users ++ [⟨genId st.nextOid,
            [("email", email), ("password", .str (bh pw)),
             ("createdAt", .date now)]⟩],
          nextOid := st.nextOid + 1 }) := by
  have hget : jsGet (regBody email pw) "email" = some email := by
    simp [regBody, jsGet]
  have hgp : jsGet (regBody email pw) "password" = some pw := by
    simp [regBody, jsGet]
  have hok : regBodyOk (regBody email pw) = true := by
    simp [regBodyOk, hget, hgp, truthyO, he, hp]
  rw [registerHandler, hok]
  simp [hget, hgp, hfind, insertOne]

theorem registerHandler_duplicate (bh : JVal → String) (now : Nat) (st : Store)
    (email pw : JVal) (u : Doc) (he : truthy email = true)
    (hp : truthy pw = true)
    (hfind : findOneBy st.users "email" (some email) = some u) :
    registerHandler bh now st (regBody email pw)
      = (⟨400, msgBody "User already exists"⟩, st) := by
  have hget : jsGet (regBody email pw) "email" = some email := by
    simp [regBody, jsGet]
  have hgp : jsGet (regBody email pw) "password" = some pw := by
    simp [regBody, jsGet]
  have hok : regBodyOk (regBody email pw) = true := by
    simp [regBodyOk, hget, hgp, truthyO, he, hp]
  rw [registerHandler, hok]
  simp [hget, hfind]

/-! ## Claim C1 -/

/-- C1 counterexample: in `src/server.js`, `PUT /students/:id` is registered
without the auth gate, so a request carrying no Authorization header is not
answered 401 with "No token provided" — it succeeds with 204 and replaces
the stored document, contradicting the claim for the POST/PUT/DELETE
`/students` routes of that file. -/
theorem C1_counterexample :
    (plainPutStudents sampleStore sampleId sampleStudentBody).1.status = 204 ∧
      (plainPutStudents sampleStore sampleId sampleStudentBody).1 ≠ noTokenResp ∧
      (plainPutStudents sampleStore sampleId sampleStudentBody).2 ≠ sampleStore := by
  decide

/-- C1 (amended): in the authenticated server `src/unnamed/part_000`, every
request to a protected write route (POST/PUT/DELETE on /students and
/courses) with no Authorization header is answered 401 with
`{message: "No token provided"}`; with a header whose token fails
verification (including a header without a second space-separated
component) it is answered 401 with `{message: "Invalid token"}`; in both
cases the store is unchanged.  The same method/path routes registered by
`src/server.js` have no auth gate: they never answer 401. -/
theorem C1_protected_writes (verify : String → Option String) (now : Nat)
    (st : Store) (body : List (String × JVal)) (r : PRoute) :
    (protectedCall verify none now st body r = (noTokenResp, st)) ∧
      (∀ h : String, h ≠ "" → ((jsSplitSpace h).get? 1).bind verify = none →
        protectedCall verify (some h) now st body r = (invalidTokenResp, st)) ∧
      (∀ i : String, (plainPostStudents now st body).1.status ≠ 401 ∧
        (plainPutStudents st i body).1.status ≠ 401 ∧
        (plainDeleteStudents st i).1.status ≠ 401) := by
  refine ⟨rfl, ?_, ?_⟩
  · intro h hne hbind
    rw [protectedCall, authMiddleware]
    rw [if_neg hne]
    cases hs : (jsSplitSpace h).get? 1 with
    | none => rfl
    | some tk =>
      rw [hs] at hbind
      simp at hbind
      simp [hbind]
  · intro i
    refine ⟨?_, ?_, ?_⟩
    · rw [plainPostStudents]
      by_cases hb : studentBodyOk body <;> simp [hb, allFieldsResp]
    · rw [plainPutStudents]
      by_cases hv : isValidObjectId i <;>
        by_cases hb : studentBodyOk body <;>
          by_cases hm : (replaceOneById st.students i (studentFieldsOf body)).2 = 0 <;>
            simp [hv, hb, hm, allFieldsResp]
    · rw [plainDeleteStudents]
      by_cases hv : isValidObjectId i <;>
        by_cases hm : (deleteOneById st.students i).2 = 0 <;>
          simp [hv, hm]

/-- C1 witness: the amended statement evaluated on the fixture store with a
rejecting verifier and a concrete protected route. -/
theorem C1_protected_writes_witness :
    protectedCall neverVerify none 0 sampleStore sampleStudentBody .postS
        = (noTokenResp, sampleStore) ∧
      protectedCall neverVerify (some "Bearer bad") 0 sampleStore
          sampleStudentBody .postS = (invalidTokenResp, sampleStore) ∧
      (plainPutStudents sampleStore sampleId sampleStudentBody).1.status ≠ 401 := by
  refine ⟨(C1_protected_writes neverVerify 0 sampleStore sampleStudentBody .postS).1,
    (C1_protected_writes neverVerify 0 sampleStore sampleStudentBody .postS).2.1
      "Bearer bad" (by decide) (by decide),
    ((C1_protected_writes neverVerify 0 sampleStore sampleStudentBody .postS).2.2
      sampleId).2.1⟩

/-! ## Claim C2 -/

/-- C2 counterexample: `POST /auth/register` with a missing password answers
400 with `{message: "Email and password required"}`, not the claimed
`{message: "All fields are required"}`. -/
theorem C2_counterexample :
    registerHandler (fun _ => "") 0 emptyStore [("email", .str "a@b.com")]
        = (⟨400, msgBody "Email and password required"⟩, emptyStore) ∧
      msgBody "Email and password required" ≠ msgBody "All fields are required" := by
  decide

/-- C2 (amended): on every write route, a request body with a required field
absent or falsy is answered 400 and creates/replaces no document: the
student and course POST/PUT routes answer `{message: "All fields are
required"}` (for PUT, once the id is well-formed, since the malformed-id 400
is checked first), while `POST /auth/register` answers
`{message: "Email and password required"}`. -/
theorem C2_required_fields (bh : JVal → String) (now : Nat) (st : Store)
    (body : List (String × JVal)) (i : String) :
    (regBodyOk body = false →
      registerHandler bh now st body
        = (⟨400, msgBody "Email and password required"⟩, st)) ∧
      (studentBodyOk body = false →
        postStudentsHandler now st body = (allFieldsResp, st)) ∧
      (isValidObjectId i = true → studentBodyOk body = false →
        putStudentsHandler st i body = (allFieldsResp, st)) ∧
      (courseBodyOk body = false →
        postCoursesHandler st body = (allFieldsResp, st)) ∧
      (isValidObjectId i = true → courseBodyOk body = false →
        putCoursesHandler st i body = (allFieldsResp, st)) := by
  refine ⟨?_, ?_, ?_, ?_, ?_⟩
  · intro h; simp [registerHandler, h]
  · intro h; simp [postStudentsHandler, h]
  · intro hv h; simp [putStudentsHandler, hv, h]
  · intro h; simp [postCoursesHandler, h]
  · intro hv h; simp [putCoursesHandler, hv, h]

/-- C2 witness: the amended statement evaluated on concrete invalid bodies
(missing password, missing year, missing code). -/
theorem C2_required_fields_witness :
    registerHandler (fun _ => "") 5 sampleStore [("email", .str "a@b.com")]
        = (⟨400, msgBody "Email and password required"⟩, sampleStore) ∧
      postStudentsHandler 5 sampleStore [("firstName", .str "Ada")]
        = (allFieldsResp, sampleStore) ∧
      putStudentsHandler sampleStore sampleId [("firstName", .str "Ada")]
        = (allFieldsResp, sampleStore) ∧
      postCoursesHandler sampleStore [("name", .str "Algebra")]
        = (allFieldsResp, sampleStore) ∧
      putCoursesHandler sampleStore sampleId [("name", .str "Algebra")]
        = (allFieldsResp, sampleStore) := by
  refine ⟨(C2_required_fields (fun _ => "") 5 sampleStore _ sampleId).1 (by decide),
    (C2_required_fields (fun _ => "") 5 sampleStore _ sampleId).2.1 (by decide),
    (C2_required_fields (fun _ => "") 5 sampleStore _ sampleId).2.2.1 (by decide)
      (by decide),
    (C2_required_fields (fun _ => "") 5 sampleStore _ sampleId).2.2.2.1 (by decide),
    (C2_required_fields (fun _ => "") 5 sampleStore _ sampleId).2.2.2.2 (by decide)
      (by decide)⟩

/-! ## Claim C5 -/

/-- C5 counterexample: in `src/server.js`, `PUT /students/:id` (and its
DELETE) build the ObjectId inside the try block with no validity check, so
the request with the malformed id "x" is answered 500 (the constructor's
error echoed by the catch block), not the claimed 400. -/
theorem C5_counterexample :
    (plainPutStudents sampleStore "x" sampleStudentBody).1.status = 500 ∧
      (plainPutStudents sampleStore "x" sampleStudentBody).1.status ≠ 400 ∧
      (plainDeleteStudents sampleStore "x").1.status = 500 := by
  decide

/-- C5 (amended): in `src/unnamed/part_000`, every id-addressed route
(GET/PUT/DELETE on /students/:id and /courses/:id) answers 400 leaving the
store unchanged when the id is not a well-formed ObjectId, and 404 when the
id is well-formed but matches no stored document (for the PUT routes, with a
body passing field validation, which is checked before the lookup); in
`src/server.js`, PUT/DELETE /students/:id answer 500 on a malformed id, and
404 on a well-formed unmatched id as claimed. -/
theorem C5_id_routes (st : Store) (i : String) (body : List (String × JVal))
    (r : IdRoute) :
    (isValidObjectId i = false →
      (idCall st i body r).1.status = 400 ∧ (idCall st i body r).2 = st) ∧
      (isValidObjectId i = true → findById (idRouteColl st r) i = none →
        idRouteBodyOk body r = true → (idCall st i body r).1.status = 404) ∧
      (isValidObjectId i = false →
        (plainPutStudents st i body).1.status = 500 ∧
          (plainDeleteStudents st i).1.status = 500) ∧
      (isValidObjectId i = true → findById st.students i = none →
        studentBodyOk body = true →
        (plainPutStudents st i body).1.status = 404 ∧
          (plainDeleteStudents st i).1.status = 404) := by
  refine ⟨?_, ?_, ?_, ?_⟩
  · intro hv
    cases r <;>
      simp [idCall, getStudentByIdHandler, putStudentsHandler,
        deleteStudentsHandler, getCourseByIdHandler, putCoursesHandler,
        deleteCoursesHandler, hv]
  · intro hv hf hb
    cases r <;>
      simp only [idCall, idRouteColl, idRouteBodyOk] at hf hb ⊢ <;>
      simp [getStudentByIdHandler, putStudentsHandler, deleteStudentsHandler,
        getCourseByIdHandler, putCoursesHandler, deleteCoursesHandler, hv, hb,
        hf, replaceOneById_of_none hf, deleteOneById_of_none hf]
  · intro hv
    constructor
    · simp [plainPutStudents, hv]
    · simp [plainDeleteStudents, hv]
  · intro hv hf hb
    constructor
    · simp [plainPutStudents, hv, hb, replaceOneById_of_none hf]
    · simp [plainDeleteStudents, hv, deleteOneById_of_none hf]

/-- C5 witness: the amended statement evaluated on the fixture store, with
the malformed id "zz" and the well-formed absent id `otherId`. -/
theorem C5_id_routes_witness :
    ((idCall sampleStore "zz" sampleStudentBody .getS).1.status = 400 ∧
        (idCall sampleStore "zz" sampleStudentBody .getS).2 = sampleStore) ∧
      (idCall sampleStore otherId sampleStudentBody .putS).1.status = 404 ∧
      (plainPutStudents sampleStore "zz" sampleStudentBody).1.status = 500 ∧
      (plainDeleteStudents sampleStore otherId).1.status = 404 := by
  refine ⟨(C5_id_routes sampleStore "zz" sampleStudentBody .getS).1 (by decide),
    (C5_id_routes sampleStore otherId sampleStudentBody .putS).2.1 (by decide)
      (by decide) (by decide),
    ((C5_id_routes sampleStore "zz" sampleStudentBody .putS).2.2.1 (by decide)).1,
    ((C5_id_routes sampleStore otherId sampleStudentBody .delS).2.2.2 (by decide)
      (by decide) (by decide)).2⟩

/-! ## Claim C3 -/

/-- C3: under serialized execution, registering twice with the same email on
a store with no user holding that email answers 201 the first time, 400
`{message: "User already exists"}` the second time, and leaves exactly one
user document with that email in the users collection. -/
theorem C3_register_twice (bh : JVal → String) (now1 now2 : Nat) (st : Store)
    (email pw : JVal) (he : truthy email = true) (hp : truthy pw = true)
    (h0 : countByEmail st.users email = 0) :
    (registerHandler bh now1 st (regBody email pw)).1.status = 201 ∧
      (registerHandler bh now2
          (registerHandler bh now1 st (regBody email pw)).2 (regBody email pw)).1
        = ⟨400, msgBody "User already exists"⟩ ∧
      countByEmail
        (registerHandler bh now2
            (registerHandler bh now1 st (regBody email pw)).2
            (regBody email pw)).2.users email = 1 := by
  have hpred : ∀ d ∈ st.users, ¬((fun d : Doc =>
      decide (jsGet d.fields "email" = some email)) d = true) := by
    intro d hd
    have hnil : List.filter
        (fun d : Doc => decide (jsGet d.fields "email" = some email)) st.users
          = [] :=
      List.length_eq_zero.mp h0
    simpa using List.filter_eq_nil_iff.mp hnil d hd
  have hfind : findOneBy st.users "email" (some email) = none := by
    rw [findOneBy]
    exact List.find?_eq_none.mpr hpred
  have h1 := registerHandler_success bh now1 st email pw he hp hfind
  set u : Doc := ⟨genId st.nextOid,
    [("email", email), ("password", .str (bh pw)), ("createdAt", .date now1)]⟩
    with hu
  have hufind : (fun d : Doc =>
      decide (jsGet d.fields "email" = some email)) u = true := by
    simp [hu, jsGet]
  have hfind2 : findOneBy (st.users ++ [u]) "email" (some email) = some u := by
    rw [findOneBy, List.find?_append]
    rw [findOneBy] at hfind
    rw [hfind]
    simp [hufind]
  have h2 := registerHandler_duplicate bh now2
    { st with users := st.users ++ [u], nextOid := st.nextOid + 1 }
    email pw u he hp (by simpa using hfind2)
  refine ⟨by rw [h1], ?_, ?_⟩
  · rw [h1]
    simp only [hu] at h2 ⊢
    rw [h2]
  · rw [h1]
    simp only [hu] at h2 ⊢
    rw [h2]
    simp only [countByEmail, List.filter_append]
    rw [List.length_eq_zero.mp h0]  -- rewrites the filtered prefix to []
    simp [hufind]

/-- C3 witness: registering `a@b.com` twice against the empty store. -/
theorem C3_register_twice_witness :
    (registerHandler (fun _ => "h1") 1 emptyStore
        (regBody (.str "a@b.com") (.str "pw"))).1.status = 201 ∧
      (registerHandler (fun _ => "h1") 2
          (registerHandler (fun _ => "h1") 1 emptyStore
              (regBody (.str "a@b.com") (.str "pw"))).2
          (regBody (.str "a@b.com") (.str "pw"))).1
        = ⟨400, msgBody "User already exists"⟩ ∧
      countByEmail
        (registerHandler (fun _ => "h1") 2
            (registerHandler (fun _ => "h1") 1 emptyStore
                (regBody (.str "a@b.com") (.str "pw"))).2
            (regBody (.str "a@b.com") (.str "pw"))).2.users
          (.str "a@b.com") = 1 :=
  C3_register_twice (fun _ => "h1") 1 2 emptyStore (.str "a@b.com") (.str "pw")
    (by decide) (by decide) (by decide)

/-! ## Claim C4 -/

/-- C4: the two login failure cases — no user with the given email, and a
user found whose stored hash does not match the supplied password — produce
the very same response, status 401 with body
`{message: "Invalid credentials"}`, leaving the store unchanged; an observer
cannot tell which check failed. -/
theorem C4_login_uniform_failure (bcmp : JVal → JVal → Bool) (secret : String)
    (now : Nat) (st : Store) (body : List (String × JVal)) :
    (findOneBy st.users "email" (jsGet body "email") = none →
      loginHandler bcmp secret now st body
        = (⟨401, msgBody "Invalid credentials"⟩, st)) ∧
      (∀ (u : Doc) (p hsh : JVal),
        findOneBy st.users "email" (jsGet body "email") = some u →
        jsGet body "password" = some p → jsGet u.fields "password" = some hsh →
        bcmp p hsh = false →
        loginHandler bcmp secret now st body
          = (⟨401, msgBody "Invalid credentials"⟩, st)) := by
  constructor
  · intro hfind
    rw [loginHandler, hfind]
  · intro u p hsh hfind hgp hgu hcmp
    rw [loginHandler, hfind]
    simp only [hgp, hgu]
    rw [hcmp]
    simp

/-- C4 witness: both failure cases evaluated on a store holding one user,
with a comparison function that rejects the supplied password. -/
theorem C4_login_uniform_failure_witness :
    loginHandler (fun _ _ => false) "sec" 9 userStore
        (regBody (.str "nobody@b.com") (.str "pw"))
      = (⟨401, msgBody "Invalid credentials"⟩, userStore) ∧
      loginHandler (fun _ _ => false) "sec" 9 userStore
        (regBody (.str "a@b.com") (.str "wrong"))
      = (⟨401, msgBody "Invalid credentials"⟩, userStore) :=
  ⟨(C4_login_uniform_failure (fun _ _ => false) "sec" 9 _ _).1 (by decide),
   (C4_login_uniform_failure (fun _ _ => false) "sec" 9 _ _).2
     ⟨"u1", [("email", .str "a@b.com"), ("password", .str "H"),
        ("createdAt", .date 0)]⟩ (.str "wrong") (.str "H")
     (by decide) (by decide) (by decide) rfl⟩

/-! ## Claim C6 -/

/-- C6: registration stores the bcrypt hash of the password (never the
plaintext), and no endpoint response carries the password or its hash: the
registration response holds only the fixed message and the new id, every
login response path (uniform failure, bcrypt argument error, success token
whose payload is just the user id) is free of it, and the student/course
reads — the list endpoints and the by-id endpoints alike — serve only fixed
messages and documents of those collections. -/
theorem C6_password_never_leaks (bh : JVal → String) (bcmp : JVal → JVal → Bool)
    (secret : String) (now : Nat) (st : Store) (emailS pwS : String)
    (he : emailS ≠ "") (hp : pwS ≠ "")
    (hfind : findOneBy st.users "email" (some (.str emailS)) = none) :
    ((registerHandler bh now st (regBody (.str emailS) (.str pwS))).2.users
        = st.users ++ [⟨genId st.nextOid,
            [("email", .str emailS), ("password", .str (bh (.str pwS))),
             ("createdAt", .date now)]⟩]) ∧
      (bh (.str pwS) ≠ pwS → emailS ≠ pwS →
        fieldsMention [("email", .str emailS),
          ("password", .str (bh (.str pwS))), ("createdAt", .date now)] pwS
          = false) ∧
      (∀ s : String, s ≠ "User created" → genId st.nextOid ≠ s →
        bodyMentions
          (registerHandler bh now st (regBody (.str emailS) (.str pwS))).1.body
          s = false) ∧
      (∀ (s : String) (lbody : List (String × JVal)),
        s ≠ "Invalid credentials" → s ≠ "data and hash arguments required" →
        (∀ u ∈ st.users, u.oid ≠ s) →
        bodyMentions (loginHandler bcmp secret now st lbody).1.body s = false) ∧
      (∀ s : String,
        (∀ d ∈ st.students, d.oid ≠ s ∧ fieldsMention d.fields s = false) →
        bodyMentions (getStudentsHandler st).1.body s = false) ∧
      (∀ s : String,
        (∀ d ∈ st.courses, d.oid ≠ s ∧ fieldsMention d.fields s = false) →
        bodyMentions (getCoursesHandler st).1.body s = false) ∧
      (∀ s i : String, s ≠ "Invalid student ID" → s ≠ "Student not found" →
        (∀ d ∈ st.students, d.oid ≠ s ∧ fieldsMention d.fields s = false) →
        bodyMentions (getStudentByIdHandler st i).1.body s = false) ∧
      (∀ s i : String, s ≠ "Invalid course ID" → s ≠ "Course not found" →
        (∀ d ∈ st.courses, d.oid ≠ s ∧ fieldsMention d.fields s = false) →
        bodyMentions (getCourseByIdHandler st i).1.body s = false) := by
  have h1 := registerHandler_success bh now st (.str emailS) (.str pwS)
    (by simp [truthy, he]) (by simp [truthy, hp]) hfind
  refine ⟨?_, ?_, ?_, ?_, ?_, ?_, ?_, ?_⟩
  · rw [h1]
  · intro hne1 hne2
    simp [fieldsMention, scalarMentions, hne1, hne2]
  · intro s hs1 hs2
    rw [h1]
    simp [bodyMentions, fieldsMention, scalarMentions, Ne.symm hs1, hs2]
  · intro s lbody hs1 hs2 hu
    rw [loginHandler]
    split
    · simp [bodyMentions, fieldsMention, scalarMentions, msgBody,
        Ne.symm hs1]
    · rename_i u hf
      have hmem : u ∈ st.users := by
        rw [findOneBy] at hf
        exact List.mem_of_find?_eq_some hf
      split
      · split
        · simp [bodyMentions, fieldsMention, scalarMentions, jwtSign,
            hu u hmem]
        · simp [bodyMentions, fieldsMention, scalarMentions, msgBody,
            Ne.symm hs1]
      · simp [bodyMentions, fieldsMention, scalarMentions, Ne.symm hs2]
  · intro s hd
    simp only [getStudentsHandler, bodyMentions]
    rw [List.any_eq_false]
    intro fs hfs
    rw [List.mem_map] at hfs
    obtain ⟨d, hdmem, rfl⟩ := hfs
    have hdprop := hd d hdmem
    have h2 : ∀ kv ∈ d.fields, ¬(scalarMentions kv.2 s = true) := by
      have hx := hdprop.2
      simp only [fieldsMention] at hx
      exact List.any_eq_false.mp hx
    simp only [docJson, fieldsMention, List.any_cons, Bool.or_eq_true]
    push_neg
    constructor
    · simp [scalarMentions, hdprop.1]
    · intro hcon
      rw [List.any_eq_true] at hcon
      obtain ⟨kv, hkv, hsc⟩ := hcon
      exact h2 kv hkv hsc
  · intro s hd
    simp only [getCoursesHandler, bodyMentions]
    rw [List.any_eq_false]
    intro fs hfs
    rw [List.mem_map] at hfs
    obtain ⟨d, hdmem, rfl⟩ := hfs
    have hdprop := hd d hdmem
    have h2 : ∀ kv ∈ d.fields, ¬(scalarMentions kv.2 s = true) := by
      have hx := hdprop.2
      simp only [fieldsMention] at hx
      exact List.any_eq_false.mp hx
    simp only [docJson, fieldsMention, List.any_cons, Bool.or_eq_true]
    push_neg
    constructor
    · simp [scalarMentions, hdprop.1]
    · intro hcon
      rw [List.any_eq_true] at hcon
      obtain ⟨kv, hkv, hsc⟩ := hcon
      exact h2 kv hkv hsc
  · intro s i hs1 hs2 hd
    rw [getStudentByIdHandler]
    split
    · simp [bodyMentions, fieldsMention, scalarMentions, msgBody,
        Ne.symm hs1]
    · split
      · simp [bodyMentions, fieldsMention, scalarMentions, msgBody,
          Ne.symm hs2]
      · rename_i d hf
        have hdmem : d ∈ st.students := by
          rw [findById] at hf
          exact List.mem_of_find?_eq_some hf
        have hdprop := hd d hdmem
        have h2 : ∀ kv ∈ d.fields, ¬(scalarMentions kv.2 s = true) := by
          have hx := hdprop.2
          simp only [fieldsMention] at hx
          exact List.any_eq_false.mp hx
        simp only [bodyMentions, docJson, fieldsMention, List.any_cons]
        rw [Bool.or_eq_false_iff]
        constructor
        · simp [scalarMentions, hdprop.1]
        · exact List.any_eq_false.mpr h2
  · intro s i hs1 hs2 hd
    rw [getCourseByIdHandler]
    split
    · simp [bodyMentions, fieldsMention, scalarMentions, msgBody,
        Ne.symm hs1]
    · split
      · simp [bodyMentions, fieldsMention, scalarMentions, msgBody,
          Ne.symm hs2]
      · rename_i d hf
        have hdmem : d ∈ st.courses := by
          rw [findById] at hf
          exact List.mem_of_find?_eq_some hf
        have hdprop := hd d hdmem
        have h2 : ∀ kv ∈ d.fields, ¬(scalarMentions kv.2 s = true) := by
          have hx := hdprop.2
          simp only [fieldsMention] at hx
          exact List.any_eq_false.mp hx
        simp only [bodyMentions, docJson, fieldsMention, List.any_cons]
        rw [Bool.or_eq_false_iff]
        constructor
        · simp [scalarMentions, hdprop.1]
        · exact List.any_eq_false.mpr h2

/-- C6 witness: registering "new@b.com"/"pw" on the fixture store holding a
user, a student and a course, then checking the stored document and every
response kind — registration, login, both list reads and both by-id reads
(the latter hitting the 200 path on the stored documents) — for the
plaintext "pw". -/
theorem C6_password_never_leaks_witness :
    ((registerHandler (fun _ => "HASH") 3 fullStore
        (regBody (.str "new@b.com") (.str "pw"))).2.users
      = fullStore.users ++ [⟨genId fullStore.nextOid,
          [("email", .str "new@b.com"), ("password", .str "HASH"),
           ("createdAt", .date 3)]⟩]) ∧
      fieldsMention [("email", .str "new@b.com"), ("password", .str "HASH"),
        ("createdAt", .date 3)] "pw" = false ∧
      bodyMentions (registerHandler (fun _ => "HASH") 3 fullStore
        (regBody (.str "new@b.com") (.str "pw"))).1.body "pw" = false ∧
      bodyMentions (loginHandler (fun _ _ => true) "sec" 3 fullStore
        (regBody (.str "a@b.com") (.str "pw"))).1.body "pw" = false ∧
      bodyMentions (getStudentsHandler fullStore).1.body "pw" = false ∧
      bodyMentions (getCoursesHandler fullStore).1.body "pw" = false ∧
      bodyMentions (getStudentByIdHandler fullStore sampleId).1.body "pw"
        = false ∧
      bodyMentions (getCourseByIdHandler fullStore sampleId).1.body "pw"
        = false := by
  have hc := C6_password_never_leaks (fun _ => "HASH") (fun _ _ => true) "sec" 3
    fullStore "new@b.com" "pw" (by decide) (by decide) (by decide)
  exact ⟨hc.1, hc.2.1 (by decide) (by decide),
    hc.2.2.1 "pw" (by decide) (by decide),
    hc.2.2.2.1 "pw" (regBody (.str "a@b.com") (.str "pw")) (by decide)
      (by decide) (by decide),
    hc.2.2.2.2.1 "pw" (by decide), hc.2.2.2.2.2.1 "pw" (by decide),
    hc.2.2.2.2.2.2.1 "pw" sampleId (by decide) (by decide) (by decide),
    hc.2.2.2.2.2.2.2 "pw" sampleId (by decide) (by decide) (by decide)⟩

/-! ## Claim C7 -/

/-- C7: a token issued at login time `now0` embeds the expiration
`now0 + 3600` (one hour); the auth gate, verifying it with the same secret
at request time `t`, admits the request whenever `t` is before the hour
has elapsed and rejects it 401 `{message: "Invalid token"}` once the hour
has elapsed (`now0 + 3600 ≤ t`). -/
theorem C7_token_ttl (decode : String → Option JVal)
    (uid secret tokStr : String) (now0 t : Nat)
    (hdec : decode tokStr = some (jwtSign uid secret now0))
    (htsp : ∀ c ∈ tokStr.data, c ≠ ' ') :
    (t < now0 + 3600 →
      authMiddleware (jwtVerifyStr decode secret t)
        (some ("Bearer" ++ " " ++ tokStr)) = .ok uid) ∧
      (now0 + 3600 ≤ t →
        authMiddleware (jwtVerifyStr decode secret t)
          (some ("Bearer" ++ " " ++ tokStr)) = .error invalidTokenResp) := by
  have hsplit := jsSplitSpace_sep "Bearer" tokStr (by decide) (by decide) htsp
  constructor
  · intro ht
    rw [authMiddleware, if_neg (sep_ne_empty "Bearer" tokStr), hsplit]
    simp [jwtVerifyStr, hdec, jwtVerifyTok, jwtSign, ht]
  · intro ht
    rw [authMiddleware, if_neg (sep_ne_empty "Bearer" tokStr), hsplit]
    simp [jwtVerifyStr, hdec, jwtVerifyTok, jwtSign, Nat.not_lt.mpr ht]

/-- C7 witness: the fixture token (issued at time 100, secret "sec") is
admitted at time 200 and rejected at time 3700, when its hour has elapsed. -/
theorem C7_token_ttl_witness :
    authMiddleware (jwtVerifyStr sampleDecode "sec" 200)
        (some ("Bearer" ++ " " ++ "tok7")) = .ok "u7" ∧
      authMiddleware (jwtVerifyStr sampleDecode "sec" 3700)
        (some ("Bearer" ++ " " ++ "tok7")) = .error invalidTokenResp :=
  ⟨(C7_token_ttl sampleDecode "u7" "sec" "tok7" 100 200 (by decide)
      (by decide)).1 (by decide),
   (C7_token_ttl sampleDecode "u7" "sec" "tok7" 100 3700 (by decide)
      (by decide)).2 (by decide)⟩

/-! ## Claim C8 -/

/-- C8 counterexample: `src/server.js` never reads JWT_SECRET — with the
secret absent from the environment it boots anyway, and its routes handle
requests: GET /students answers 200 and DELETE /students/:id answers 204
and mutates the store, contradicting "the process exits before binding the
HTTP server: no route ever handles a request in that configuration". -/
theorem C8_counterexample :
    envTruthy noSecretEnv.jwtSecret = false ∧
      plainBoot noSecretEnv ≠ none ∧
      (runPlainServer noSecretEnv 0 sampleStore
          [.getStudents, .delStudents sampleId]).map
            (fun out => out.1.map Resp.status)
        = some [200, 204] ∧
      (runPlainServer noSecretEnv 0 sampleStore
          [.getStudents, .delStudents sampleId]).map (fun out => out.2)
        ≠ some sampleStore := by
  decide

/-- C8 (amended): in `src/unnamed/part_000` the claim holds: with
JWT_SECRET absent (or empty, which is equally falsy) the process exits
during the startup check, the app is never built, the server never bound,
and no route handles any request of any trace.  `src/server.js`, however,
never reads JWT_SECRET: in the same environment it boots and serves every
request trace. -/
theorem C8_missing_secret_fatal (bh : JVal → String) (bcmp : JVal → JVal → Bool)
    (decode : String → Option JVal) (env : Env) (now : Nat) (st : Store)
    (reqs : List Req) (preqs : List PlainReq)
    (h : envTruthy env.jwtSecret = false) :
    (boot env = none ∧ runServer bh bcmp decode env now st reqs = none) ∧
      (plainBoot env = some ⟨env.port.getD 3000⟩ ∧
        runPlainServer env now st preqs ≠ none) := by
  have hb : boot env = none := by simp [boot, h]
  refine ⟨⟨hb, by rw [runServer, hb]⟩, rfl, ?_⟩
  simp [runPlainServer, plainBoot]

/-- C8 witness: the amended statement on a concrete environment without
JWT_SECRET: the part_000 server handles none of its trace, while the
server.js trace is served. -/
theorem C8_missing_secret_fatal_witness :
    (boot noSecretEnv = none ∧
      runServer (fun _ => "") (fun _ _ => false) (fun _ => none) noSecretEnv 0
        emptyStore
        [.getStudents, .register (regBody (.str "a@b.com") (.str "pw"))]
        = none) ∧
      (plainBoot noSecretEnv = some ⟨3000⟩ ∧
        runPlainServer noSecretEnv 0 emptyStore [.getStudents] ≠ none) :=
  C8_missing_secret_fatal (fun _ => "") (fun _ _ => false) (fun _ => none)
    noSecretEnv 0 emptyStore
    [.getStudents, .register (regBody (.str "a@b.com") (.str "pw"))]
    [.getStudents] (by decide)

/-! ## Claim C9 -/

/-- C9: the auth gate never checks the authorization scheme: a header
"<word> <token>" whose token verifies is admitted whatever <word> is
(Bearer or not); and a nonempty header containing no space is rejected 401
`{message: "Invalid token"}` (the split yields no second component, so the
token is undefined and verification throws) — not "No token provided". -/
theorem C9_gate_ignores_scheme (verify : String → Option String) :
    (∀ w t uid : String, w ≠ "" → (∀ c ∈ w.data, c ≠ ' ') →
      (∀ c ∈ t.data, c ≠ ' ') → verify t = some uid →
      authMiddleware verify (some (w ++ " " ++ t)) = .ok uid) ∧
      (∀ h : String, h ≠ "" → (∀ c ∈ h.data, c ≠ ' ') →
        authMiddleware verify (some h) = .error invalidTokenResp) := by
  constructor
  · intro w t uid hw hwsp htsp hv
    rw [authMiddleware, if_neg (sep_ne_empty w t),
      jsSplitSpace_sep w t hw hwsp htsp]
    simp [hv]
  · intro h hne hsp
    rw [authMiddleware, if_neg hne, jsSplitSpace_no_space h hsp]
    rfl

/-- C9 witness: the scheme word "Token" is accepted when the token
verifies, and the spaceless header "Tokentok9" yields Invalid token. -/
theorem C9_gate_ignores_scheme_witness :
    authMiddleware schemeVerify (some ("Token" ++ " " ++ "tok9")) = .ok "u9" ∧
      authMiddleware schemeVerify (some "Tokentok9")
        = .error invalidTokenResp :=
  ⟨(C9_gate_ignores_scheme schemeVerify).1 "Token" "tok9" "u9" (by decide)
      (by decide) (by decide) (by decide),
   (C9_gate_ignores_scheme schemeVerify).2 "Tokentok9" (by decide) (by decide)⟩

/-! ## Claim C10 -/

/-- C10: a successful PUT on /students/:id or /courses/:id replaces the
stored document wholesale with exactly the fields taken from the request
body: afterwards the document under that id carries precisely the six
student (resp. seven course) fields — in particular no `createdAt`
timestamp and no other previously present field survives. -/
theorem C10_put_replaces_wholesale :
    (∀ (st : Store) (i : String) (body : List (String × JVal)) (d : Doc),
      isValidObjectId i = true → studentBodyOk body = true →
      findById st.students i = some d →
      (putStudentsHandler st i body).1 = ⟨204, .empty⟩ ∧
        findById (putStudentsHandler st i body).2.students i
          = some ⟨i, studentFieldsOf body⟩ ∧
        jsGet (studentFieldsOf body) "createdAt" = none ∧
        (∀ k : String, k ∉ (["firstName", "lastName", "email", "course",
            "year", "registrationNumber"] : List String) →
          jsGet (studentFieldsOf body) k = none)) ∧
      (∀ (st : Store) (i : String) (body : List (String × JVal)) (d : Doc),
        isValidObjectId i = true → courseBodyOk body = true →
        findById st.courses i = some d →
        (putCoursesHandler st i body).1 = ⟨204, .empty⟩ ∧
          findById (putCoursesHandler st i body).2.courses i
            = some ⟨i, courseFieldsOf body⟩ ∧
          (∀ k : String, k ∉ (["name", "code", "instructor", "credits",
              "semester", "department", "year"] : List String) →
            jsGet (courseFieldsOf body) k = none)) := by
  constructor
  · intro st i body d hv hb hf
    have hr := replaceOneById_of_some hf (studentFieldsOf body)
    have hstat : putStudentsHandler st i body = (⟨204, .empty⟩,
        { st with
            students := (replaceOneById st.students i (studentFieldsOf body)).1 }) := by
      rw [putStudentsHandler]
      simp [hv, hb, hr.1]
    refine ⟨by rw [hstat], by rw [hstat]; exact hr.2, ?_, ?_⟩
    · simp [studentFieldsOf, jsGet]
    · intro k hk
      simp only [List.mem_cons, List.not_mem_nil, or_false, not_or] at hk
      obtain ⟨k1, k2, k3, k4, k5, k6⟩ := hk
      simp [jsGet, studentFieldsOf, List.find?, Ne.symm k1, Ne.symm k2,
        Ne.symm k3, Ne.symm k4, Ne.symm k5, Ne.symm k6]
  · intro st i body d hv hb hf
    have hr := replaceOneById_of_some hf (courseFieldsOf body)
    have hstat : putCoursesHandler st i body = (⟨204, .empty⟩,
        { st with
            courses := (replaceOneById st.courses i (courseFieldsOf body)).1 }) := by
      rw [putCoursesHandler]
      simp [hv, hb, hr.1]
    refine ⟨by rw [hstat], by rw [hstat]; exact hr.2, ?_⟩
    intro k hk
    simp only [List.mem_cons, List.not_mem_nil, or_false, not_or] at hk
    obtain ⟨k1, k2, k3, k4, k5, k6, k7⟩ := hk
    simp [jsGet, courseFieldsOf, List.find?, Ne.symm k1, Ne.symm k2,
      Ne.symm k3, Ne.symm k4, Ne.symm k5, Ne.symm k6, Ne.symm k7]

/-- C10 witness: replacing the fixture student (created with a `createdAt`
stamp at time 11) and the fixture course; the stored documents afterwards
hold exactly the request fields, with no `createdAt`. -/
theorem C10_put_replaces_wholesale_witness :
    (putStudentsHandler sampleStore sampleId sampleStudentBody).1
        = ⟨204, .empty⟩ ∧
      findById (putStudentsHandler sampleStore sampleId
          sampleStudentBody).2.students sampleId
        = some ⟨sampleId, studentFieldsOf sampleStudentBody⟩ ∧
      jsGet (studentFieldsOf sampleStudentBody) "createdAt" = none ∧
      (putCoursesHandler courseStore sampleId sampleCourseBody).1
        = ⟨204, .empty⟩ := by
  have hs := C10_put_replaces_wholesale.1 sampleStore sampleId
    sampleStudentBody
    ⟨sampleId, studentFieldsOf sampleStudentBody ++ [("createdAt", .date 11)]⟩
    (by decide) (by decide) (by decide)
  have hcrs := C10_put_replaces_wholesale.2 courseStore sampleId
    sampleCourseBody ⟨sampleId, courseFieldsOf sampleCourseBody⟩
    (by decide) (by decide) (by decide)
  exact ⟨hs.1, hs.2.1, hs.2.2.1, hcrs.1⟩

end StudentApi
